import Mathlib

/-!
Shallow embedding of the request-admission engine of the faucet service
(`src/tools/faucet/src/main.rs`) and proofs about it.

Modelling conventions:
* `SystemTime` values and `Duration`s are modelled as `Nat` seconds since the
  epoch.  Rust's `now.duration_since(earlier).unwrap_or(Duration::ZERO)` is
  exactly truncated `Nat` subtraction `now - earlier`.
* The two `HashMap`s of `FaucetState` are modelled as association lists with
  overwrite-on-insert semantics (`mapInsert`) and key lookup (`mapGet`).
* Strings that are inspected character by character (recipient addresses) are
  modelled as `List Char`; opaque strings (IPs, tx hashes, error details) as
  `String`.
* The async handler `request_tokens` reads `SystemTime::now()` twice (once in
  the IP-limiting block, once before the cooldown check); the embedding takes
  both instants `now1`, `now2` as parameters.
* The external transfer (`send_transaction`) is passed in as a
  `txResult : Except FaucetError String` parameter and the handler's `match`
  on it is embedded directly; in the reference source the stub always
  succeeds, but both arms of the handler's `match` are in the source.
* `u64` arithmetic is modelled as `Nat` with explicit reduction `% 2 ^ 64`
  where overflow matters (the `stats` handler).
-/

namespace Faucet

/-- `const FAUCET_AMOUNT: u64 = 100_000_000_000_000_000_000; // 100 AXX (in wei)`.
The numeral from the source; note that it exceeds `2 ^ 64 - 1`. -/
def FAUCET_AMOUNT : Nat := 100000000000000000000

/-- `const COOLDOWN_HOURS: u64 = 24;` -/
def COOLDOWN_HOURS : Nat := 24

/-- `const MAX_REQUESTS_PER_IP: usize = 3;` -/
def MAX_REQUESTS_PER_IP : Nat := 3

/-- `Duration::from_secs(COOLDOWN_HOURS * 3600)`, in seconds. -/
def cooldownSecs : Nat := COOLDOWN_HOURS * 3600

/-- Lookup in an association list, modelling `HashMap::get`. -/
def mapGet {α β : Type} [BEq α] (k : α) : List (α × β) → Option β
  | [] => none
  | (k', v) :: rest => if k' == k then some v else mapGet k rest

/-- Overwrite-insert in an association list, modelling `HashMap::insert` /
`HashMap::entry(k).or_insert(v)` followed by overwriting the slot. -/
def mapInsert {α β : Type} [BEq α] (k : α) (v : β) : List (α × β) → List (α × β)
  | [] => [(k, v)]
  | (k', v') :: rest => if k' == k then (k, v) :: rest else (k', v') :: mapInsert k v rest

/-- The two shared maps of `struct FaucetState` (the remaining fields —
private key, RPC URL, chain id — never influence the admission logic). -/
structure FaucetState where
  address_requests : List (List Char × Nat)
  ip_requests : List (String × List Nat)
deriving DecidableEq

/-- `enum FaucetError` from the source.  The `Duration` payload of `TooSoon`
is in seconds. -/
inductive FaucetError where
  | InvalidAddress : FaucetError
  | TooSoon : Nat → FaucetError
  | RateLimited : FaucetError
  | InsufficientFunds : FaucetError
  | RpcError : String → FaucetError
  | InternalError : String → FaucetError
deriving DecidableEq

/-- The observable part of the HTTP response produced by
`impl IntoResponse for FaucetError`: status code, the `success` field and the
`error` string of the JSON body. -/
structure ErrorResponse where
  status : Nat
  success : Bool
  error : String
deriving DecidableEq

/-- `FaucetError::into_response` from the source: the
`(status, message)` pair of the `match`, packed with `success: false`. -/
def into_response : FaucetError → ErrorResponse
  | FaucetError.InvalidAddress => ⟨400, false, "Invalid Ethereum address"⟩
  | FaucetError.TooSoon remaining =>
      ⟨429, false, "Please wait " ++ toString (remaining / 3600) ++ " hours before requesting again"⟩
  | FaucetError.RateLimited => ⟨429, false, "Too many requests from this IP. Try again later."⟩
  | FaucetError.InsufficientFunds =>
      ⟨503, false, "Faucet is currently out of funds. Please try again later."⟩
  | FaucetError.RpcError err => ⟨500, false, "RPC error: " ++ err⟩
  | FaucetError.InternalError err => ⟨500, false, "Internal error: " ++ err⟩

/-- Rust `char::is_ascii_hexdigit`: `'0'..='9' | 'a'..='f' | 'A'..='F'`. -/
def isAsciiHexdigit (c : Char) : Bool :=
  decide (48 ≤ c.toNat ∧ c.toNat ≤ 57) || decide (97 ≤ c.toNat ∧ c.toNat ≤ 102)
    || decide (65 ≤ c.toNat ∧ c.toNat ≤ 70)

/-- `address.starts_with("0x")`. -/
def starts_with_0x : List Char → Bool
  | c1 :: c2 :: _ => c1 == '0' && c2 == 'x'
  | _ => false

/-- `fn is_valid_address`: starts with `"0x"`, total length 42, and every
character after the prefix is an ASCII hex digit. -/
def is_valid_address (address : List Char) : Bool :=
  starts_with_0x address && address.length == 42 && (address.drop 2).all isAsciiHexdigit

/-- Rust `str::trim` (whitespace stripped from both ends).  The embedding
uses `Char.isWhitespace` (space, tab, CR, LF). -/
def trim (s : List Char) : List Char :=
  ((s.dropWhile Char.isWhitespace).reverse.dropWhile Char.isWhitespace).reverse

/-- `payload.address.trim().to_lowercase()`.  Lower-casing is per character
(`Char.toLower`, which maps exactly the ASCII letters `A`–`Z` down). -/
def normalize (raw : List Char) : List Char :=
  (trim raw).map Char.toLower

/-- The pruned sliding window the handler computes for an origin:
`requests.retain(|&time| time > cutoff)` with `cutoff = now - 24h`, applied
to the stored window (`entry(ip).or_insert_with(Vec::new)` defaults a missing
entry to the empty vector). -/
def prunedWindow (st : FaucetState) (ip : String) (now1 : Nat) : List Nat :=
  ((mapGet ip st.ip_requests).getD []).filter (fun t => now1 - cooldownSecs < t)

/-- The address-cooldown test of `request_tokens` (lines 177–186): if the
address has a recorded grant and `elapsed < cooldown`, produce
`some remaining`; otherwise `none`.  `elapsed` is
`now.duration_since(last_request).unwrap_or(Duration::ZERO)`, i.e. truncated
subtraction. -/
def cooldownCheck (st : FaucetState) (address : List Char) (now : Nat) : Option Nat :=
  match mapGet address st.address_requests with
  | some last_request =>
      let elapsed := now - last_request
      if elapsed < cooldownSecs then some (cooldownSecs - elapsed) else none
  | none => none

/-- The commit executed only in the `Ok(tx_hash)` arm of `request_tokens`:
`address_requests.insert(address, now)` and, when an origin is present,
`ip_requests.entry(ip).or_insert_with(Vec::new).push(now)`. -/
def commitGrant (st : FaucetState) (address : List Char) (client_ip : Option String)
    (now : Nat) : FaucetState :=
  let st1 : FaucetState := { st with address_requests := mapInsert address now st.address_requests }
  match client_ip with
  | some ip =>
      { st1 with
          ip_requests :=
            mapInsert ip (((mapGet ip st1.ip_requests).getD []) ++ [now]) st1.ip_requests }
  | none => st1

/-- The tail of `request_tokens` from the cooldown check on: deny `TooSoon`
inside the window, otherwise dispatch on the transfer result and commit only
on success. -/
def addressPhase (st : FaucetState) (address : List Char) (client_ip : Option String)
    (now : Nat) (txResult : Except FaucetError String) :
    Except FaucetError String × FaucetState :=
  match cooldownCheck st address now with
  | some remaining => (Except.error (FaucetError.TooSoon remaining), st)
  | none =>
      match txResult with
      | Except.ok tx_hash => (Except.ok tx_hash, commitGrant st address client_ip now)
      | Except.error e => (Except.error e, st)

/-- `async fn request_tokens`: normalize and validate the address, apply
origin (IP) rate limiting when an origin is present (pruning the stored
window in place), then the cooldown check and the transfer dispatch.
Returns the handler result together with the final shared state. -/
def request_tokens (st : FaucetState) (rawAddress : List Char) (client_ip : Option String)
    (now1 now2 : Nat) (txResult : Except FaucetError String) :
    Except FaucetError String × FaucetState :=
  let address := normalize rawAddress
  if is_valid_address address = true then
    match client_ip with
    | some ip =>
        let pruned := prunedWindow st ip now1
        let st1 : FaucetState := { st with ip_requests := mapInsert ip pruned st.ip_requests }
        if MAX_REQUESTS_PER_IP ≤ pruned.length then
          (Except.error FaucetError.RateLimited, st1)
        else
          addressPhase st1 address (some ip) now2 txResult
    | none => addressPhase st address none now2 txResult
  else (Except.error FaucetError.InvalidAddress, st)

/-- `async fn stats`: `total_requests = address_requests.len()` and
`total_distributed = total_requests as u64 * FAUCET_AMOUNT`, the latter a
`u64` computation, i.e. carried out modulo `2 ^ 64`. -/
def stats (st : FaucetState) : Nat × Nat :=
  let total_requests := st.address_requests.length
  (total_requests, (total_requests % 2 ^ 64) * (FAUCET_AMOUNT % 2 ^ 64) % 2 ^ 64)

/-- A well-formed all-lower-case address: `0x` followed by 40 `a`s. -/
def addrA : List Char := '0' :: 'x' :: List.replicate 40 'a'

/-- A mixed-case, space-padded spelling that normalizes to `addrA`. -/
def rawMixed : List Char := ' ' :: '0' :: 'X' :: List.replicate 40 'A'

/-- The empty faucet state. -/
def stEmpty : FaucetState := { address_requests := [], ip_requests := [] }

/-- A state in which exactly one address has ever been granted. -/
def stOne : FaucetState := { address_requests := [(addrA, 0)], ip_requests := [] }

/-- A concrete origin identifier. -/
def ipA : String := "1.2.3.4"

/-- A state whose window for `ipA` holds one stale timestamp (at 50000) and
two fresh ones relative to `now1 = 186000`. -/
def stWin : FaucetState :=
  { address_requests := [], ip_requests := [(ipA, [50000, 100000, 150000])] }

/-- A state whose window for `ipA` holds three fresh timestamps relative to
`now1 = 186000`, and whose grant map holds `addrA` inside the cooldown of
`now2 = 186000`. -/
def stWin3 : FaucetState :=
  { address_requests := [(addrA, 150000)], ip_requests := [(ipA, [100000, 150000, 170000])] }

/-- A state whose recorded grant for `addrA` lies in the future of `now = 5`. -/
def stFuture : FaucetState := { address_requests := [(addrA, 1000)], ip_requests := [] }

/-! ### Helper lemmas -/

theorem char_toNat_ofNat_valid (m : Nat) (h : m.isValidChar) : (Char.ofNat m).toNat = m := by
  rw [Char.ofNat, dif_pos h]
  rfl

theorem toLower_toNat (c : Char) :
    (Char.toLower c).toNat = if 65 ≤ c.toNat ∧ c.toNat ≤ 90 then c.toNat + 32 else c.toNat := by
  unfold Char.toLower
  by_cases h : 65 ≤ c.toNat ∧ c.toNat ≤ 90
  · rw [if_pos h, if_pos h, char_toNat_ofNat_valid]
    exact Or.inl (by omega)
  · rw [if_neg h, if_neg h]

theorem toLower_eq_self (c : Char) (h : ¬(65 ≤ c.toNat ∧ c.toNat ≤ 90)) :
    Char.toLower c = c := by
  unfold Char.toLower
  rw [if_neg h]

theorem toLower_toLower (c : Char) : Char.toLower (Char.toLower c) = Char.toLower c := by
  by_cases h : 65 ≤ c.toNat ∧ c.toNat ≤ 90
  · apply toLower_eq_self
    rw [toLower_toNat, if_pos h]
    omega
  · rw [toLower_eq_self c h]
    exact toLower_eq_self c h

theorem hex_toLower (c : Char) : isAsciiHexdigit (Char.toLower c) = isAsciiHexdigit c := by
  have h := toLower_toNat c
  rw [Bool.eq_iff_iff]
  simp only [isAsciiHexdigit, Bool.or_eq_true, decide_eq_true_eq, h]
  by_cases h65 : 65 ≤ c.toNat ∧ c.toNat ≤ 90
  · rw [if_pos h65]
    omega
  · rw [if_neg h65]

theorem mapGet_mapInsert_self {α β : Type} [BEq α] [LawfulBEq α] (k : α) (v : β)
    (m : List (α × β)) : mapGet k (mapInsert k v m) = some v := by
  induction m with
  | nil => simp [mapInsert, mapGet]
  | cons p rest ih =>
      obtain ⟨k', v'⟩ := p
      by_cases h : (k' == k) = true
      · simp [mapInsert, mapGet, h]
      · simp only [mapInsert, if_neg h]
        simp [mapGet, h, ih]

theorem mapInsert_mapInsert {α β : Type} [BEq α] [LawfulBEq α] (k : α) (v w : β)
    (m : List (α × β)) : mapInsert k w (mapInsert k v m) = mapInsert k w m := by
  induction m with
  | nil => simp [mapInsert]
  | cons p rest ih =>
      obtain ⟨k', v'⟩ := p
      by_cases h : (k' == k) = true
      · simp [mapInsert, h]
      · simp only [mapInsert, if_neg h]
        simp [mapInsert, h, ih]

theorem cooldownSecs_eq : cooldownSecs = 86400 := rfl

theorem filter_fresh_eq (now : Nat) (h : cooldownSecs ≤ now) (l : List Nat) :
    l.filter (fun t => decide (now - t < cooldownSecs))
      = l.filter (fun t => decide (now - cooldownSecs < t)) := by
  have hc : cooldownSecs = 86400 := rfl
  apply List.filter_congr
  intro t _
  rw [decide_eq_decide]
  omega

theorem starts_with_0x_iff (l : List Char) :
    starts_with_0x l = true ↔ l.take 2 = ['0', 'x'] := by
  match l with
  | [] => simp [starts_with_0x]
  | [c] => simp [starts_with_0x]
  | c1 :: c2 :: t => simp [starts_with_0x, List.take]

theorem map_toLower_idem (l : List Char) :
    (l.map Char.toLower).map Char.toLower = l.map Char.toLower := by
  induction l with
  | nil => rfl
  | cons c t ih => simp only [List.map_cons, toLower_toLower, ih]

/-! ### Claim theorems -/

/-- Claim C9: every error outcome maps to exactly one HTTP status and message
with `success: false`: `InvalidAddress` to 400 with "Invalid Ethereum
address", `TooSoon` and `RateLimited` to 429, `InsufficientFunds` to 503 with
the out-of-funds message, and RPC/internal failures to 500 with the detail
text verbatim in the error string. -/
theorem error_response_mapping :
    (∀ e : FaucetError, (into_response e).success = false)
    ∧ into_response FaucetError.InvalidAddress = ⟨400, false, "Invalid Ethereum address"⟩
    ∧ (∀ r : Nat, into_response (FaucetError.TooSoon r)
        = ⟨429, false, "Please wait " ++ toString (r / 3600) ++ " hours before requesting again"⟩)
    ∧ into_response FaucetError.RateLimited
        = ⟨429, false, "Too many requests from this IP. Try again later."⟩
    ∧ into_response FaucetError.InsufficientFunds
        = ⟨503, false, "Faucet is currently out of funds. Please try again later."⟩
    ∧ (∀ d : String, into_response (FaucetError.RpcError d) = ⟨500, false, "RPC error: " ++ d⟩)
    ∧ (∀ d : String, into_response (FaucetError.InternalError d)
        = ⟨500, false, "Internal error: " ++ d⟩) :=
  ⟨fun e => by cases e <;> rfl, rfl, fun r => rfl, rfl, rfl, fun d => rfl, fun d => rfl⟩

/-- Claim C8 (code bug): the claim requires
`total_distributed = total_requests * FAUCET_AMOUNT` in exact integer
arithmetic, but the source computes it in `u64` and the constant
`FAUCET_AMOUNT = 10 ^ 20` does not even fit in a `u64`
(`2 ^ 64 - 1 < FAUCET_AMOUNT`): with a single granted address the `u64`
product is `7766279631452241920`, not `1 * 10 ^ 20`. -/
theorem stats_u64_overflow :
    (stats stOne).1 = 1
    ∧ (stats stOne).2 = 7766279631452241920
    ∧ ¬ (stats stOne).2 = (stats stOne).1 * FAUCET_AMOUNT
    ∧ 2 ^ 64 - 1 < FAUCET_AMOUNT :=
  ⟨rfl, by decide, by decide, by decide⟩

/-- Claim C5: validation of the normalized input accepts exactly the strings
whose trimmed form, case-insensitively, is `0x` followed by 40 hex digits
(total length 42); the accepted address is stored lower-cased, so two inputs
differing only in case collide on the same ledger entry. -/
theorem address_validation_characterization (raw : List Char) :
    (is_valid_address (normalize raw) = true ↔
      ((trim raw).map Char.toLower).take 2 = ['0', 'x']
        ∧ (trim raw).length = 42
        ∧ ∀ c ∈ (trim raw).drop 2, isAsciiHexdigit c = true)
    ∧ (normalize raw).map Char.toLower = normalize raw
    ∧ ∀ raw2 : List Char, (trim raw2).map Char.toLower = (trim raw).map Char.toLower →
        normalize raw2 = normalize raw := by
  refine ⟨?_, map_toLower_idem (trim raw), fun raw2 h => by simp only [normalize, h]⟩
  unfold is_valid_address normalize
  simp only [Bool.and_eq_true, starts_with_0x_iff, beq_iff_eq, List.length_map,
    ← List.map_drop, List.all_eq_true, List.mem_map, and_assoc]
  constructor
  · rintro ⟨h1, h2, h3⟩
    refine ⟨h1, h2, fun c hc => ?_⟩
    have := h3 (Char.toLower c) ⟨c, hc, rfl⟩
    rwa [hex_toLower] at this
  · rintro ⟨h1, h2, h3⟩
    refine ⟨h1, h2, fun x hx => ?_⟩
    obtain ⟨c, hc, rfl⟩ := hx
    rw [hex_toLower]
    exact h3 c hc

/-- Witness for C5 at concrete inputs: the mixed-case, space-padded spelling
`rawMixed` is accepted, and it normalizes to the same stored key as the
all-lower-case `addrA`. -/
theorem address_validation_characterization_witness :
    is_valid_address (normalize rawMixed) = true ∧ normalize rawMixed = normalize addrA :=
  ⟨(address_validation_characterization rawMixed).1.mpr ⟨by decide, by decide, by decide⟩,
   (address_validation_characterization addrA).2.2 rawMixed (by decide)⟩

/-- Claim C2: an address with a recorded grant and `now - last < cooldownSecs`
is denied `TooSoon` carrying `retry_after = cooldownSecs - elapsed`, with
`0 < retry_after ≤ cooldownSecs`, and the response surfaces it as whole hours
(`retry_after / 3600`). -/
theorem address_cooldown_denies
    (st : FaucetState) (address : List Char) (client_ip : Option String)
    (now last : Nat) (tx : Except FaucetError String)
    (hlast : mapGet address st.address_requests = some last)
    (hcool : now - last < cooldownSecs) :
    addressPhase st address client_ip now tx
      = (Except.error (FaucetError.TooSoon (cooldownSecs - (now - last))), st)
    ∧ 0 < cooldownSecs - (now - last)
    ∧ cooldownSecs - (now - last) ≤ cooldownSecs
    ∧ (into_response (FaucetError.TooSoon (cooldownSecs - (now - last)))).status = 429
    ∧ (into_response (FaucetError.TooSoon (cooldownSecs - (now - last)))).error
        = "Please wait " ++ toString ((cooldownSecs - (now - last)) / 3600)
            ++ " hours before requesting again" := by
  have hc : cooldownCheck st address now = some (cooldownSecs - (now - last)) := by
    simp only [cooldownCheck, hlast]
    rw [if_pos hcool]
  refine ⟨?_, by omega, Nat.sub_le _ _, rfl, rfl⟩
  simp only [addressPhase, hc]

/-- Witness for C2: with `addrA` granted at time 0, a second request one hour
later is denied `TooSoon` with 23 whole hours left. -/
theorem address_cooldown_denies_witness :
    (addressPhase stOne addrA none 3600 (Except.ok "0xmock")
      = (Except.error (FaucetError.TooSoon (cooldownSecs - (3600 - 0))), stOne)
    ∧ 0 < cooldownSecs - (3600 - 0)
    ∧ cooldownSecs - (3600 - 0) ≤ cooldownSecs
    ∧ (into_response (FaucetError.TooSoon (cooldownSecs - (3600 - 0)))).status = 429
    ∧ (into_response (FaucetError.TooSoon (cooldownSecs - (3600 - 0)))).error
        = "Please wait " ++ toString ((cooldownSecs - (3600 - 0)) / 3600)
            ++ " hours before requesting again")
    ∧ (cooldownSecs - (3600 - 0)) / 3600 = 23 :=
  ⟨address_cooldown_denies stOne addrA none 3600 0 (Except.ok "0xmock") (by decide) (by decide),
   by decide⟩

/-- Claim C10: a recorded last-grant timestamp in the future of `now` does not
break the check: the elapsed time truncates to zero
(`duration_since(..).unwrap_or(ZERO)`), so the request is denied `TooSoon`
with the full cooldown as `retry_after`. -/
theorem future_timestamp_denied_full_cooldown
    (st : FaucetState) (address : List Char) (client_ip : Option String)
    (now last : Nat) (tx : Except FaucetError String)
    (hlast : mapGet address st.address_requests = some last)
    (hfuture : now < last) :
    addressPhase st address client_ip now tx
      = (Except.error (FaucetError.TooSoon cooldownSecs), st) := by
  have h0 : now - last = 0 := by omega
  have hc : cooldownCheck st address now = some cooldownSecs := by
    simp only [cooldownCheck, hlast, h0]
    rw [if_pos (by decide : (0:Nat) < cooldownSecs), Nat.sub_zero]
  simp only [addressPhase, hc]

/-- Witness for C10: grant recorded at time 1000, clock stepped back to 5. -/
theorem future_timestamp_denied_full_cooldown_witness :
    addressPhase stFuture addrA none 5 (Except.ok "0xmock")
      = (Except.error (FaucetError.TooSoon cooldownSecs), stFuture) :=
  future_timestamp_denied_full_cooldown stFuture addrA none 5 1000 (Except.ok "0xmock")
    (by decide) (by decide)

/-- Claim C3: a request carrying an origin whose stored window already holds
at least `MAX_REQUESTS_PER_IP` timestamps `t` with `now - t < cooldownSecs`
is denied `RateLimited`, for every valid address, every address-grant
history, and every transfer outcome. -/
theorem origin_rate_limited
    (st : FaucetState) (raw : List Char) (ip : String) (now1 now2 : Nat)
    (tx : Except FaucetError String)
    (hnow : cooldownSecs ≤ now1)
    (hvalid : is_valid_address (normalize raw) = true)
    (hcount : MAX_REQUESTS_PER_IP ≤
      (((mapGet ip st.ip_requests).getD []).filter
          (fun t => decide (now1 - t < cooldownSecs))).length) :
    (request_tokens st raw (some ip) now1 now2 tx).1 = Except.error FaucetError.RateLimited := by
  have hw : prunedWindow st ip now1
      = ((mapGet ip st.ip_requests).getD []).filter (fun t => decide (now1 - t < cooldownSecs)) :=
    (filter_fresh_eq now1 hnow _).symm
  simp only [request_tokens, if_pos hvalid, hw]
  rw [if_pos hcount]

/-- Witness for C3: the fourth request from `ipA` (window already at three
fresh timestamps) is denied `RateLimited` although `addrA`'s own cooldown
would also deny. -/
theorem origin_rate_limited_witness :
    (request_tokens stWin3 addrA (some ipA) 186000 186000 (Except.ok "0xmock")).1
      = Except.error FaucetError.RateLimited :=
  origin_rate_limited stWin3 addrA ipA 186000 186000 (Except.ok "0xmock")
    (by decide) (by decide) (by decide)

/-- Claim C4: origin rate limiting is evaluated before the address cooldown,
so when both would deny, the caller sees `RateLimited` (never `TooSoon`); a
request without an origin skips origin-based limiting entirely: the outcome
is exactly the cooldown-then-transfer phase and the origin map is untouched. -/
theorem origin_check_precedes_cooldown
    (st : FaucetState) (raw : List Char) (ip : String) (now1 now2 last : Nat)
    (tx : Except FaucetError String)
    (hvalid : is_valid_address (normalize raw) = true)
    (horigin : MAX_REQUESTS_PER_IP ≤ (prunedWindow st ip now1).length)
    (hlast : mapGet (normalize raw) st.address_requests = some last)
    (hcool : now2 - last < cooldownSecs) :
    (request_tokens st raw (some ip) now1 now2 tx).1 = Except.error FaucetError.RateLimited
    ∧ request_tokens st raw none now1 now2 tx = addressPhase st (normalize raw) none now2 tx
    ∧ (request_tokens st raw none now1 now2 tx).2.ip_requests = st.ip_requests := by
  have h2 : request_tokens st raw none now1 now2 tx
      = addressPhase st (normalize raw) none now2 tx := by
    simp only [request_tokens, if_pos hvalid]
  refine ⟨?_, h2, ?_⟩
  · simp only [request_tokens, if_pos hvalid]
    rw [if_pos horigin]
  · rw [h2]
    unfold addressPhase
    cases hcc : cooldownCheck st (normalize raw) now2 with
    | some r => rfl
    | none =>
        cases tx with
        | ok h => simp [commitGrant]
        | error e => rfl

/-- Witness for C4: from `stWin3` both checks would deny, and the caller
gets `RateLimited`; without an origin the same request leaves the origin map
untouched. -/
theorem origin_check_precedes_cooldown_witness :
    ((request_tokens stWin3 addrA (some ipA) 186000 186000 (Except.ok "0xmock")).1
        = Except.error FaucetError.RateLimited
    ∧ request_tokens stWin3 addrA none 186000 186000 (Except.ok "0xmock")
        = addressPhase stWin3 (normalize addrA) none 186000 (Except.ok "0xmock")
    ∧ (request_tokens stWin3 addrA none 186000 186000 (Except.ok "0xmock")).2.ip_requests
        = stWin3.ip_requests) :=
  origin_check_precedes_cooldown stWin3 addrA ipA 186000 186000 150000 (Except.ok "0xmock")
    (by decide) (by decide) (by decide) (by decide)

/-- Claim C1: admission is two-phase with commit-on-success.  With a valid
address, a passing origin gate and a passing cooldown check: a failed
transfer leaves the grant map unchanged and appends nothing to the origin
window (the check itself only prunes stale entries), so the address is still
eligible afterwards; a successful transfer commits exactly one overwrite of
the address's timestamp and exactly one append to the origin window when an
origin is present — and no origin-window change at all when none is. -/
theorem two_phase_commit_on_success
    (st : FaucetState) (raw : List Char) (ip : String) (now1 now2 : Nat)
    (e : FaucetError) (tx_hash : String)
    (hvalid : is_valid_address (normalize raw) = true)
    (horigin : (prunedWindow st ip now1).length < MAX_REQUESTS_PER_IP)
    (hcool : cooldownCheck st (normalize raw) now2 = none) :
    request_tokens st raw (some ip) now1 now2 (Except.error e)
      = (Except.error e,
          { st with ip_requests := mapInsert ip (prunedWindow st ip now1) st.ip_requests })
    ∧ request_tokens st raw none now1 now2 (Except.error e) = (Except.error e, st)
    ∧ cooldownCheck (request_tokens st raw (some ip) now1 now2 (Except.error e)).2
        (normalize raw) now2 = none
    ∧ request_tokens st raw (some ip) now1 now2 (Except.ok tx_hash)
      = (Except.ok tx_hash,
          { address_requests := mapInsert (normalize raw) now2 st.address_requests,
            ip_requests := mapInsert ip (prunedWindow st ip now1 ++ [now2]) st.ip_requests })
    ∧ request_tokens st raw none now1 now2 (Except.ok tx_hash)
      = (Except.ok tx_hash,
          { st with address_requests := mapInsert (normalize raw) now2 st.address_requests }) := by
  have hno : ¬ MAX_REQUESTS_PER_IP ≤ (prunedWindow st ip now1).length := Nat.not_le.mpr horigin
  have hcool1 : cooldownCheck
      { st with ip_requests := mapInsert ip (prunedWindow st ip now1) st.ip_requests }
      (normalize raw) now2 = none := hcool
  have hfail : request_tokens st raw (some ip) now1 now2 (Except.error e)
      = (Except.error e,
          { st with ip_requests := mapInsert ip (prunedWindow st ip now1) st.ip_requests }) := by
    simp only [request_tokens, if_pos hvalid]
    rw [if_neg hno]
    simp only [addressPhase, hcool1]
  refine ⟨hfail, ?_, ?_, ?_, ?_⟩
  · simp only [request_tokens, if_pos hvalid]
    simp only [addressPhase, hcool]
  · rw [hfail]
    exact hcool1
  · simp only [request_tokens, if_pos hvalid]
    rw [if_neg hno]
    simp only [addressPhase, hcool1]
    simp only [commitGrant, mapGet_mapInsert_self, Option.getD_some, mapInsert_mapInsert]
  · simp only [request_tokens, if_pos hvalid]
    simp only [addressPhase, hcool]
    simp only [commitGrant]

/-- Witness for C1: from `stWin` (two fresh window entries, no prior grant
for `addrA`) a failed transfer commits nothing beyond the pruning. -/
theorem two_phase_commit_on_success_witness :
    request_tokens stWin addrA (some ipA) 186000 186000
        (Except.error FaucetError.InsufficientFunds)
      = (Except.error FaucetError.InsufficientFunds,
          { stWin with
              ip_requests := mapInsert ipA (prunedWindow stWin ipA 186000) stWin.ip_requests }) :=
  (two_phase_commit_on_success stWin addrA ipA 186000 186000 FaucetError.InsufficientFunds
    "0xmock" (by decide) (by decide) (by decide)).1

/-- Claim C7: after every admission check with an origin present (and a valid
address), the stored window for that origin holds exactly the previously
stored timestamps `t` with `t > now - cooldownSecs` — stale entries are
pruned lazily on the check itself, whether the request is admitted or denied
— and the new timestamp is appended only after a successful transfer. -/
theorem origin_window_pruned_on_check
    (st : FaucetState) (raw : List Char) (ip : String) (now1 now2 : Nat)
    (tx : Except FaucetError String)
    (hvalid : is_valid_address (normalize raw) = true) :
    mapGet ip (request_tokens st raw (some ip) now1 now2 tx).2.ip_requests
      = some (match (request_tokens st raw (some ip) now1 now2 tx).1 with
          | Except.ok _ => prunedWindow st ip now1 ++ [now2]
          | Except.error _ => prunedWindow st ip now1) := by
  simp only [request_tokens, if_pos hvalid]
  by_cases hlim : MAX_REQUESTS_PER_IP ≤ (prunedWindow st ip now1).length
  · rw [if_pos hlim]
    simp [mapGet_mapInsert_self]
  · rw [if_neg hlim]
    unfold addressPhase
    cases hcc : cooldownCheck
        { st with ip_requests := mapInsert ip (prunedWindow st ip now1) st.ip_requests }
        (normalize raw) now2 with
    | some r => simp [mapGet_mapInsert_self]
    | none =>
        cases tx with
        | error e => simp [mapGet_mapInsert_self]
        | ok h => simp [commitGrant, mapGet_mapInsert_self, mapInsert_mapInsert]

/-- Witness for C7: from `stWin` at `now1 = 186000`, the stale entry 50000 is
pruned and the successful transfer appends 186000. -/
theorem origin_window_pruned_on_check_witness :
    mapGet ipA
        (request_tokens stWin addrA (some ipA) 186000 186000 (Except.ok "0xabc")).2.ip_requests
      = some (match (request_tokens stWin addrA (some ipA) 186000 186000
              (Except.ok "0xabc")).1 with
          | Except.ok _ => prunedWindow stWin ipA 186000 ++ [186000]
          | Except.error _ => prunedWindow stWin ipA 186000) :=
  origin_window_pruned_on_check stWin addrA ipA 186000 186000 (Except.ok "0xabc") (by decide)

end Faucet
